import Mathlib

/-!
Verification of the multisig ticket triage service against its specification.

The definitions below are a shallow embedding of the program's core modules:
`src/urgency-scorer.js` (scoring engine), `src/ticket-storage.js` (indexed
ticket store over an ordered key-value substrate) and `src/server.js`
(service facade and re-triage scheduler).

Modelling conventions:
* JS numbers are exact rationals (`ℚ`); timestamps are integers (`ℤ`,
  epoch milliseconds).  `new Date(x).getTime()` on an already-numeric
  deadline is the identity, so deadlines are carried as `ℤ` directly.
* JS truthiness is modelled explicitly: `0`, `""`, `undefined`/`null`
  (encoded as `none` or as a designated default such as `""`) are falsy.
* The ordered key-value substrate (hyperbee) is an association list of
  `(key, value)` pairs kept sorted by the bytewise lexicographic key order;
  `createReadStream {gte, lte}` is a range filter over that order.  All keys
  used by the program are ASCII, where bytewise order coincides with the
  character-code order implemented here.
* Stored values are either a serialized ticket record, the index marker
  `"1"`, or an ill-formed byte string whose `JSON.parse` throws
  (`Blob.malformed`).  Throwing JS code is modelled with `Except Unit`.
* The optional LLM scoring backend is a parameter: absent, throwing, or
  returning a response whose embedded JSON block is already classified
  (no block / a parsed block), exactly the distinctions `parseLLMResponse`
  makes.
-/

attribute [local semireducible] Rat.add Rat.mul Rat.sub Rat.inv Rat.ofScientific

/-! ## JS value helpers -/

/-- JS `s || d` for string fields; the absent field is encoded as `""`,
which is falsy just like the empty string itself. -/
def jsOrStr (s d : String) : String :=
  if s = "" then d else s

/-- JS `n || d` for numeric integer fields; the absent field is encoded as
`0`, which is falsy just like an actual `0`. -/
def jsOrNat (n d : ℕ) : ℕ :=
  if n = 0 then d else n

/-- JS `x || d` for an optional timestamp field (`undefined` and `0` falsy). -/
def jsOrInt (v : Option ℤ) (d : ℤ) : ℤ :=
  match v with
  | none => d
  | some x => if x = 0 then d else x

/-- JS falsiness of an optional numeric field: `undefined` and `0`. -/
def jsFalsyQ (v : Option ℚ) : Prop :=
  v = none ∨ v = some 0

instance (v : Option ℚ) : Decidable (jsFalsyQ v) := by
  unfold jsFalsyQ; infer_instance

/-- JS falsiness of an optional timestamp field: `undefined` and `0`. -/
def jsFalsyI (v : Option ℤ) : Prop :=
  v = none ∨ v = some 0

instance (v : Option ℤ) : Decidable (jsFalsyI v) := by
  unfold jsFalsyI; infer_instance

/-! ## String helpers

Mirrors of the JS string operations used by the program, written over the
character list of a `String` so that they evaluate inside the kernel. -/

/-- Bytewise (character-code) lexicographic `≤` on character lists: the key
order of the ordered key-value substrate. -/
def charsLe : List Char → List Char → Bool
  | [], _ => true
  | _ :: _, [] => false
  | a :: as, b :: bs =>
    if a.toNat < b.toNat then true
    else if b.toNat < a.toNat then false
    else charsLe as bs

/-- Lexicographic `≤` on keys. -/
def keyLe (a b : String) : Bool := charsLe a.data b.data

/-- Lexicographic `<` on keys. -/
def keyLt (a b : String) : Bool := !(keyLe b a)

/-- JS `String.prototype.startsWith`. -/
def charsStart : List Char → List Char → Bool
  | _, [] => true
  | [], _ :: _ => false
  | a :: as, b :: bs => a = b && charsStart as bs

/-- JS `s.startsWith(pre)`. -/
def jsStartsWith (s pre : String) : Bool := charsStart s.data pre.data

/-- JS `s.includes(sub)` (used by `calculateTypeFactor`). -/
def charsContain (sub : List Char) : List Char → Bool
  | [] => charsStart [] sub
  | l@(_ :: rest) => charsStart l sub || charsContain sub rest

/-- JS `s.includes(sub)`. -/
def strIncludes (s sub : String) : Bool := charsContain sub.data s.data

/-- JS `s.split(":")`. -/
def splitChars (sep : Char) : List Char → List (List Char)
  | [] => [[]]
  | c :: rest =>
    let r := splitChars sep rest
    if c = sep then [] :: r
    else
      match r with
      | [] => [[c]]
      | h :: t => (c :: h) :: t

/-- JS `s.split(":")`. -/
def jsSplitColon (s : String) : List String :=
  (splitChars ':' s.data).map (fun l => ⟨l⟩)

/-- JS `s.toLowerCase()` (ASCII). -/
def jsToLower (s : String) : String := ⟨s.data.map Char.toLower⟩

/-- JS `s.slice(0, n)`. -/
def jsSlice (s : String) (n : ℕ) : String := ⟨s.data.take n⟩

/-! ## Number formatting for index keys

JS renders the numbers embedded in index keys with `${...}`.  The urgency
index key is always `Math.round(u * 10) / 10`, i.e. a multiple of `0.1`;
`fmtTenths z` renders `z / 10` exactly as JS does (`0 ↦ "0"`, `5 ↦ "0.5"`,
`10 ↦ "1"`, `15 ↦ "1.5"`, `-5 ↦ "-0.5"`).  Timestamps are integers and
render in decimal. -/

/-- Render `n / 10` for `n : ℕ` the way JS renders that number. -/
def fmtTenthsNat (n : ℕ) : String :=
  if n % 10 = 0 then toString (n / 10)
  else toString (n / 10) ++ "." ++ toString (n % 10)

/-- Render `z / 10` for `z : ℤ` the way JS renders that number. -/
def fmtTenths (z : ℤ) : String :=
  if z < 0 then "-" ++ fmtTenthsNat z.natAbs else fmtTenthsNat z.natAbs

/-- JS `Math.round`: round half toward positive infinity. -/
def jsRound (q : ℚ) : ℤ := ⌊q + 1/2⌋

/-! ## Data model (§3 of the spec) -/

/-- One approval record; only the length of the approvals sequence is ever
inspected by the program. -/
structure Approval where
  approver : String := ""
  timestamp : String := ""
  signature : String := ""
deriving DecidableEq

/-- `ticket.recipient`.  An absent object field is `false`-y, so the
defaults encode `{}`. -/
structure Recipient where
  address : String := ""
  verified : Bool := false
  whitelisted : Bool := false
  isNew : Bool := false
deriving DecidableEq

/-- The five factor values of `getUrgencyFactors`. -/
structure Factors where
  value : ℚ
  deadline : ℚ
  approvals : ℚ
  type : ℚ
  recipient : ℚ
deriving DecidableEq

/-- `ticket.urgencyBreakdown`. -/
structure Breakdown where
  baseUrgency : ℚ
  llmAdjustment : ℚ
  factors : Factors
deriving DecidableEq

/-- The ticket record.  `""`, `0`, `none` encode absent fields (all falsy
in JS, matching every use the program makes of them). -/
structure Ticket where
  id : String := ""
  type : String := ""
  description : String := ""
  value : Option ℚ := none
  currency : String := ""
  recipient : Option Recipient := none
  deadline : Option ℤ := none
  requiredApprovals : ℕ := 0
  approvals : List Approval := []
  status : String := ""
  urgency : ℚ := 0
  breakdown : Option Breakdown := none
  summary : String := ""
  tags : List String := []
  createdAt : Option ℤ := none
  lastUpdated : Option ℤ := none
  storedAt : Option ℤ := none
deriving DecidableEq

/-! ## Scoring engine (`src/urgency-scorer.js`) -/

/-- `calculateValueFactor` (urgency-scorer.js:147-166). -/
def calculateValueFactor (t : Ticket) : ℚ :=
  let value := t.value.getD 0
  let currency := jsOrStr t.currency "USD"
  let usdValue :=
    if currency = "ETH" then value * 2000
    else if currency = "BTC" then value * 45000
    else value
  if usdValue = 0 ∨ jsFalsyQ t.value then 0.1
  else if usdValue < 1000 then 0.2
  else if usdValue < 10000 then 0.4
  else if usdValue < 100000 then 0.7
  else if usdValue < 1000000 then 0.9
  else 1.0

/-- `calculateDeadlineFactor` (urgency-scorer.js:168-181); `now` is
`Date.now()`. -/
def calculateDeadlineFactor (now : ℤ) (t : Ticket) : ℚ :=
  if jsFalsyI t.deadline then 0.3
  else
    let timeLeft := t.deadline.getD 0 - now
    if timeLeft < 0 then 1.0
    else if timeLeft < 3600000 then 0.9
    else if timeLeft < 86400000 then 0.7
    else if timeLeft < 604800000 then 0.5
    else if timeLeft < 2592000000 then 0.3
    else 0.1

/-- `calculateApprovalsFactor` (urgency-scorer.js:183-192). -/
def calculateApprovalsFactor (t : Ticket) : ℚ :=
  let required := jsOrNat t.requiredApprovals 2
  let current := t.approvals.length
  if current ≥ required then 0.1
  else if current = 0 then 0.9
  else if current = required - 1 then 0.3
  else 0.6

/-- `calculateTypeFactor` (urgency-scorer.js:194-211). -/
def calculateTypeFactor (t : Ticket) : ℚ :=
  let ty := jsToLower t.type
  if strIncludes ty "emergency" || strIncludes ty "urgent" then 0.9
  else if strIncludes ty "security" || strIncludes ty "breach" then 0.8
  else if strIncludes ty "payroll" || strIncludes ty "salary" then 0.7
  else if strIncludes ty "vendor" || strIncludes ty "payment" then 0.5
  else if strIncludes ty "treasury" || strIncludes ty "investment" then 0.4
  else if strIncludes ty "maintenance" || strIncludes ty "upgrade" then 0.2
  else if strIncludes ty "test" || strIncludes ty "demo" then 0.1
  else 0.3

/-- `calculateRecipientFactor` (urgency-scorer.js:213-223). -/
def calculateRecipientFactor (t : Ticket) : ℚ :=
  let r := t.recipient.getD {}
  if r.isNew || !r.verified then 0.8
  else if r.verified && r.whitelisted then 0.2
  else 0.5

/-- `getUrgencyFactors` (urgency-scorer.js:126-145). -/
def getUrgencyFactors (now : ℤ) (t : Ticket) : Factors where
  value := calculateValueFactor t
  deadline := calculateDeadlineFactor now t
  approvals := calculateApprovalsFactor t
  type := calculateTypeFactor t
  recipient := calculateRecipientFactor t

/-- `calculateDeterministicUrgency` (urgency-scorer.js:101-124).  All five
factors are present in the factors object and all five have weights, so the
fold over `Object.entries(factors)` is the literal weighted sum. -/
def calculateDeterministicUrgency (now : ℤ) (t : Ticket) : ℚ :=
  let factors := getUrgencyFactors now t
  let totalScore :=
    factors.value * 0.3 + factors.deadline * 0.25 + factors.approvals * 0.2 +
      factors.type * 0.15 + factors.recipient * 0.1
  let totalWeight : ℚ := 0.3 + 0.25 + 0.2 + 0.15 + 0.1
  if totalWeight > 0 then totalScore / totalWeight else 0.5

/-- The JSON block of an LLM response, as far as `parseLLMResponse` reads
it: `adjustment` with `|| 0` semantics (absent encoded as `0`), `summary`
with `|| default` semantics (absent encoded as `""`), and `tags`, which is
used only when it is an array (`none` = not an array). -/
structure LLMJson where
  adjustment : ℚ := 0
  summary : String := ""
  tags : Option (List String) := none
deriving DecidableEq

/-- The response text of the LLM backend, classified the way
`parseLLMResponse` classifies it: either no well-formed JSON block is found
(`none`, which also covers a block whose `JSON.parse` throws) or the parsed
block. -/
abbrev LLMRaw := Option LLMJson

/-- Result of `parseLLMResponse`. -/
structure AdjResult where
  adjustment : ℚ
  summary : String
  tags : List String
deriving DecidableEq

/-- `parseLLMResponse` (urgency-scorer.js:265-288): clamp the adjustment to
`[-0.2, 0.2]`, default the summary, and keep `tags` only when it is an
array.  Note that the tag list is **not** truncated here. -/
def parseLLMResponse (raw : LLMRaw) : AdjResult :=
  match raw with
  | none => { adjustment := 0, summary := "LLM analysis failed", tags := [] }
  | some j =>
    { adjustment := max (-0.2) (min 0.2 j.adjustment)
      summary := jsOrStr j.summary "LLM analysis unavailable"
      tags := j.tags.getD [] }

/-- `generateDeterministicSummary` (urgency-scorer.js:290-300).  The
decimal rendering of the value is approximated by the rational `toString`;
no claim depends on the summary text. -/
def generateDeterministicSummary (t : Ticket) : String :=
  let type := jsOrStr t.type "transaction"
  let value :=
    if jsFalsyQ t.value then "unknown value"
    else toString (t.value.getD 0) ++ " " ++ jsOrStr t.currency "USD"
  let recipient :=
    match t.recipient with
    | some r => if r.address = "" then "to unknown recipient"
                else "to " ++ jsSlice r.address 8 ++ "..."
    | none => "to unknown recipient"
  type ++ " of " ++ value ++ " " ++ recipient

/-- `generateDeterministicTags` (urgency-scorer.js:302-332). -/
def generateDeterministicTags (now : ℤ) (t : Ticket) : List String :=
  let typeTags : List String := if t.type ≠ "" then [jsToLower t.type] else []
  let valueTags : List String :=
    if jsFalsyQ t.value then []
    else
      let v := t.value.getD 0
      if v > 100000 then ["high-value"]
      else if v < 1000 then ["low-value"]
      else ["medium-value"]
  let approvals := t.approvals.length
  let required := jsOrNat t.requiredApprovals 2
  let approvalTags : List String :=
    if approvals ≥ required then ["approved"]
    else if approvals = 0 then ["pending-approval"]
    else ["partially-approved"]
  let deadlineTags : List String :=
    if jsFalsyI t.deadline then []
    else
      let timeLeft := t.deadline.getD 0 - now
      if timeLeft < 86400000 then ["urgent-deadline"]
      else if timeLeft < 604800000 then ["near-deadline"]
      else []
  (typeTags ++ valueTags ++ approvalTags ++ deadlineTags).take 5

/-- Result of `calculateUrgency`. -/
structure ScoreResult where
  score : ℚ
  breakdown : Breakdown
  summary : String
  tags : List String
deriving DecidableEq

/-- The state of the optional LLM backend for one `calculateUrgency` call:
`none` when the scorer is not initialized, `some (.error ())` when
`session.prompt` throws (caught inside `calculateUrgency`), and
`some (.ok raw)` when it returns a response classified as `raw`. -/
abbrev LLMOutcome := Option (Except Unit LLMRaw)

/-- `calculateUrgency` (urgency-scorer.js:52-99). -/
def calculateUrgency (now : ℤ) (llm : LLMOutcome) (t : Ticket) : ScoreResult :=
  let baseUrgency := calculateDeterministicUrgency now t
  let lr : AdjResult :=
    match llm with
    | none => { adjustment := 0, summary := "", tags := [] }
    | some (.error _) => { adjustment := 0, summary := "", tags := [] }
    | some (.ok raw) => parseLLMResponse raw
  let summary := jsOrStr lr.summary (generateDeterministicSummary t)
  let tags := if lr.tags = [] then generateDeterministicTags now t else lr.tags
  let finalUrgency := max 0 (min 1 (baseUrgency + lr.adjustment))
  { score := finalUrgency
    breakdown :=
      { baseUrgency := baseUrgency
        llmAdjustment := lr.adjustment
        factors := getUrgencyFactors now t }
    summary := summary
    tags := tags }

/-- The tags the LLM path would contribute, for stating what
`calculateUrgency` does with them. -/
def llmTags (llm : LLMOutcome) : List String :=
  match llm with
  | some (.ok raw) => (parseLLMResponse raw).tags
  | _ => []

/-! ## Claim C1 -/

/-- **C1** (confirmed).  For every ticket and every backend outcome (whose
adjustment is clamped by `parseLLMResponse`), the score returned by
`ScoringEngine.calculateUrgency` is `clamp(baseUrgency + adjustment, 0, 1)`
and therefore lies in `[0, 1]`, including for extreme or missing inputs
(negative value, value 0, no deadline — all instances of the universally
quantified ticket). -/
theorem calculateUrgency_score_clamped (now : ℤ) (llm : LLMOutcome) (t : Ticket) :
    (calculateUrgency now llm t).score =
        max 0 (min 1 ((calculateUrgency now llm t).breakdown.baseUrgency +
          (calculateUrgency now llm t).breakdown.llmAdjustment)) ∧
      0 ≤ (calculateUrgency now llm t).score ∧
      (calculateUrgency now llm t).score ≤ 1 := by
  refine ⟨rfl, le_max_left 0 _, ?_⟩
  exact max_le (by norm_num) (min_le_left 1 _)

/-! ## Claim C10 -/

/-- **C10** (confirmed).  A ticket with a strictly negative `value` gets
value factor `0.2` (the below-1,000 bucket), not the unknown/zero bucket's
`0.1`, whatever the currency: the fixed conversion rates are positive, so
the normalized amount stays negative, hence nonzero and below 1,000. -/
theorem calculateValueFactor_negative (t : Ticket) (v : ℚ) (hv : v < 0)
    (hval : t.value = some v) :
    calculateValueFactor t = 0.2 := by
  have hfalsy : ¬ jsFalsyQ (some v) := by
    rintro (h | h)
    · exact Option.noConfusion h
    · exact absurd (Option.some.inj h) (ne_of_lt hv)
  unfold calculateValueFactor
  rw [hval]
  simp only [Option.getD_some]
  have husd : (if jsOrStr t.currency "USD" = "ETH" then v * 2000
      else if jsOrStr t.currency "USD" = "BTC" then v * 45000 else v) < 0 := by
    have h2000 : v * 2000 < 0 := mul_neg_of_neg_of_pos hv (by norm_num)
    have h45000 : v * 45000 < 0 := mul_neg_of_neg_of_pos hv (by norm_num)
    split_ifs <;> linarith
  have hc1 : ¬((if jsOrStr t.currency "USD" = "ETH" then v * 2000
      else if jsOrStr t.currency "USD" = "BTC" then v * 45000 else v) = 0 ∨
        jsFalsyQ (some v)) := by
    rintro (h | h)
    · exact absurd h (ne_of_lt husd)
    · exact absurd h hfalsy
  rw [if_neg hc1, if_pos (lt_trans husd (by norm_num))]

/-- Witness for C10 at the concrete input `value = -5 ETH`. -/
theorem calculateValueFactor_negative_witness :
    (-5 : ℚ) < 0 ∧
      calculateValueFactor { value := some (-5), currency := "ETH" } = 0.2 :=
  ⟨by norm_num, calculateValueFactor_negative _ (-5) (by norm_num) rfl⟩

/-! ## Claim C8 -/

/-- **C8 counterexample** (the claim is false on the code).  When the
backend returns a well-formed JSON block with six tags, `parseLLMResponse`
keeps them untruncated and `calculateUrgency` returns all six, so the
external-adjustment path can exceed the claimed bound of 5 tags. -/
theorem calculateUrgency_tags_cex :
    (calculateUrgency 0
        (some (.ok (some
          { adjustment := 0
            summary := "s"
            tags := some ["a", "b", "c", "d", "e", "f"] }))) {}).tags.length = 6 := by
  decide

/-- The deterministic fallback tags are bounded by 5 (the `slice(0, 5)`). -/
theorem generateDeterministicTags_length_le (now : ℤ) (t : Ticket) :
    (generateDeterministicTags now t).length ≤ 5 := by
  unfold generateDeterministicTags
  simp [List.length_take]

/-- **C8 amended** (as the counterexample forces).  The tag list returned
by `calculateUrgency` has length at most 5 on the deterministic fallback
path; on the external-adjustment path it is exactly the untruncated tag
array parsed from the backend response, which may exceed 5.  Hence: the
tags are either at most 5 long or verbatim the backend's parsed tags. -/
theorem calculateUrgency_tags_amended (now : ℤ) (llm : LLMOutcome) (t : Ticket) :
    (calculateUrgency now llm t).tags.length ≤ 5 ∨
      (calculateUrgency now llm t).tags = llmTags llm := by
  unfold calculateUrgency llmTags
  match llm with
  | none => simp [generateDeterministicTags_length_le]
  | some (.error _) => simp [generateDeterministicTags_length_le]
  | some (.ok raw) =>
    by_cases h : (parseLLMResponse raw).tags = []
    · simp [h, generateDeterministicTags_length_le]
    · simp [h]

/-! ## Ordered key-value substrate (hyperbee, as used by `TicketStorage`) -/

/-- A stored value: a well-formed serialized ticket record, the index
marker `"1"`, or bytes whose `JSON.parse` throws.  No operation of the
program ever writes a marker under a `ticket:` key; at such unreachable
states `JSON.parse("1")` would actually succeed with the number `1`, and
the model treats the marker as no record (`getTicketE` returns `none`,
scans skip it).  Theorems whose truth could depend on that corner carry a
`MarkersOnlyInIndexes` hypothesis. -/
inductive Blob where
  | record (t : Ticket)
  | marker
  | malformed
deriving DecidableEq

/-- The key-value store: an association list sorted by `keyLt` (maintained
by `kvPut`), mirroring hyperbee's ordered key space. -/
abbrev KV := List (String × Blob)

/-- `hbee.put`: insert sorted, replacing an existing entry for the key. -/
def kvPut : KV → String → Blob → KV
  | [], k, v => [(k, v)]
  | (k', v') :: rest, k, v =>
    if keyLt k k' then (k, v) :: (k', v') :: rest
    else if k = k' then (k, v) :: rest
    else (k', v') :: kvPut rest k v

/-- `hbee.get` (first entry wins; entries are unique in sorted stores). -/
def kvGet : KV → String → Option Blob
  | [], _ => none
  | (k', v') :: rest, k => if k = k' then some v' else kvGet rest k

/-- `hbee.createReadStream({gte, lte})`: the entries whose key lies in the
inclusive range, in store order. -/
def kvScan (kv : KV) (lo hi : String) : KV :=
  kv.filter fun p => keyLe lo p.1 && keyLe p.1 hi

/-- Markers (index entries) only ever sit under `index:` keys; true of
every reachable store state. -/
def MarkersOnlyInIndexes (kv : KV) : Prop :=
  ∀ p ∈ kv, p.2 = Blob.marker → jsStartsWith p.1 "index:" = true

instance (kv : KV) : Decidable (MarkersOnlyInIndexes kv) := by
  unfold MarkersOnlyInIndexes; infer_instance

/-- No stored record fails to decode. -/
def KVClean (kv : KV) : Prop :=
  ∀ p ∈ kv, p.2 ≠ Blob.malformed

instance (kv : KV) : Decidable (KVClean kv) := by
  unfold KVClean; infer_instance

/-! ## Indexed ticket store (`src/ticket-storage.js`) -/

/-- The primary-record key `ticket:<id>`. -/
def pk (id : String) : String := "ticket:" ++ id

/-- `createIndexes` (ticket-storage.js:37-75). -/
def createIndexes (now : ℤ) (kv : KV) (t : Ticket) : KV :=
  let timestamp := jsOrInt t.createdAt now
  let kv1 := kvPut kv ("index:time:" ++ toString timestamp ++ ":" ++ t.id) .marker
  let urgencyKey := jsRound (t.urgency * 10)
  let kv2 := kvPut kv1 ("index:urgency:" ++ fmtTenths urgencyKey ++ ":" ++ t.id) .marker
  let kv3 := kvPut kv2 ("index:status:" ++ t.status ++ ":" ++ t.id) .marker
  let kv4 := if t.type ≠ "" then kvPut kv3 ("index:type:" ++ t.type ++ ":" ++ t.id) .marker else kv3
  if jsFalsyI t.deadline then kv4
  else kvPut kv4 ("index:deadline:" ++ toString (t.deadline.getD 0) ++ ":" ++ t.id) .marker

/-- `storeTicket` (ticket-storage.js:8-24): write the primary record (the
ticket plus `storedAt`), then the index entries.  Old index entries of a
previously stored version are not removed. -/
def storeTicket (now : ℤ) (kv : KV) (t : Ticket) : KV :=
  createIndexes now (kvPut kv (pk t.id) (.record { t with storedAt := some now })) t

/-- `updateTicket` (ticket-storage.js:33-35) simply delegates to
`storeTicket`. -/
def updateTicket (now : ℤ) (kv : KV) (t : Ticket) : KV :=
  storeTicket now kv t

/-- `getTicket` (ticket-storage.js:26-31): `JSON.parse` of a malformed
record throws (there is no try/catch here). -/
def getTicketE (kv : KV) (id : String) : Except Unit (Option Ticket) :=
  match kvGet kv (pk id) with
  | none => .ok none
  | some (.record t) => .ok (some t)
  | some .marker => .ok none
  | some .malformed => .error ()

/-- The id-extraction step shared by all index scans
(`const parts = keyStr.split(":"); if (parts.length >= 3) push(parts[2])`).
Note that `parts[2]` of `index:<dim>:<value>:<id>` is the *dimension
value*, not the ticket id (`parts[3]`). -/
def splitPart2 (k : String) : Option String :=
  let parts := jsSplitColon k
  if parts.length ≥ 3 then parts[2]? else none

/-- `searchByTimeRange` (ticket-storage.js:136-156). -/
def searchByTimeRange (kv : KV) (startTime endTime : Option ℤ) : List String :=
  let startKey := if jsFalsyI startTime then "index:time:"
    else "index:time:" ++ toString (startTime.getD 0)
  let endKey := if jsFalsyI endTime then "index:time:~"
    else "index:time:" ++ toString (endTime.getD 0)
  (kvScan kv startKey endKey).filterMap fun p =>
    if jsStartsWith p.1 "index:time:" then splitPart2 p.1 else none

/-- `searchByMinUrgency` (ticket-storage.js:158-175).  The model restricts
the query threshold to the tenths grid: `minUrgencyTenths = z` stands for
the threshold `z / 10`, whose JS number rendering is exactly `fmtTenths z`;
every threshold exercised by a claim lies on this grid. -/
def searchByMinUrgency (kv : KV) (minUrgencyTenths : ℤ) : List String :=
  (kvScan kv ("index:urgency:" ++ fmtTenths minUrgencyTenths)
      "index:urgency:~").filterMap fun p =>
    if jsStartsWith p.1 "index:urgency:" then splitPart2 p.1 else none

/-- `searchByStatus` (ticket-storage.js:177-194). -/
def searchByStatus (kv : KV) (status : String) : List String :=
  (kvScan kv ("index:status:" ++ status)
      ("index:status:" ++ status ++ "~")).filterMap fun p =>
    if jsStartsWith p.1 ("index:status:" ++ status ++ ":") then splitPart2 p.1 else none

/-- The per-entry step of the full primary scans (`getAllTickets`,
`getTicketStats`): keep an entry under a `ticket:` key whose value decodes
to a record; a value whose `JSON.parse` throws is caught and skipped. -/
def primaryRecordOf (p : String × Blob) : Option Ticket :=
  if jsStartsWith p.1 "ticket:" then
    match p.2 with
    | .record t => some t
    | _ => none
  else none

/-- `getAllTickets` (ticket-storage.js:196-215): full primary scan, a
record whose `JSON.parse` throws is caught and skipped. -/
def getAllTickets (kv : KV) : List Ticket :=
  (kvScan kv "ticket:" "ticket:~").filterMap primaryRecordOf

/-- The options object of `searchTickets`. -/
structure SearchOptions where
  startTime : Option ℤ := none
  endTime : Option ℤ := none
  minUrgencyTenths : Option ℤ := none
  status : Option String := none
  limit : ℕ := 50
deriving DecidableEq

/-- The shared fetch-and-dedup loop of `searchTickets`: for each candidate
id not already seen, mark it seen and fetch the full record (`getTicket`
may throw on a malformed record); `null` fetch results are dropped.
Returns the fetched tickets and the extended seen set. -/
def collectTickets (kv : KV) : List String → List String →
    Except Unit (List Ticket × List String)
  | [], seen => .ok ([], seen)
  | id :: rest, seen =>
    if id ∈ seen then collectTickets kv rest seen
    else do
      let t? ← getTicketE kv id
      let r ← collectTickets kv rest (id :: seen)
      match t? with
      | some t => .ok (t :: r.1, r.2)
      | none => .ok (r.1, r.2)

/-- Whether the time-range branch of `searchTickets` runs
(`if (startTime || endTime)`). -/
def timeSupplied (o : SearchOptions) : Prop :=
  ¬ jsFalsyI o.startTime ∨ ¬ jsFalsyI o.endTime

instance (o : SearchOptions) : Decidable (timeSupplied o) := by
  unfold timeSupplied; infer_instance

/-- Whether the urgency branch runs (`minUrgency !== undefined`). -/
def urgencySupplied (o : SearchOptions) : Prop :=
  o.minUrgencyTenths ≠ none

instance (o : SearchOptions) : Decidable (urgencySupplied o) := by
  unfold urgencySupplied; infer_instance

/-- Whether the status branch runs (`if (status)`, truthiness). -/
def statusSupplied (o : SearchOptions) : Prop :=
  o.status ≠ none ∧ o.status ≠ some ""

instance (o : SearchOptions) : Decidable (statusSupplied o) := by
  unfold statusSupplied; infer_instance

/-- The candidate ids contributed by the time-range predicate (empty when
the branch `if (startTime || endTime)` does not run). -/
def timeCandidates (kv : KV) (o : SearchOptions) : List String :=
  if timeSupplied o then searchByTimeRange kv o.startTime o.endTime else []

/-- The candidate ids contributed by the min-urgency predicate
(`minUrgency !== undefined`). -/
def urgencyCandidates (kv : KV) (o : SearchOptions) : List String :=
  match o.minUrgencyTenths with
  | some z => searchByMinUrgency kv z
  | none => []

/-- The candidate ids contributed by the status predicate (`if (status)`). -/
def statusCandidates (kv : KV) (o : SearchOptions) : List String :=
  if statusSupplied o then searchByStatus kv (o.status.getD "") else []

/-- The candidate-assembly phase of `searchTickets`
(ticket-storage.js:77-123): one fetch-and-dedup pass per supplied
predicate, sharing one seen set; if no predicate is supplied, fall back to
the full primary scan. -/
def searchAssembleE (kv : KV) (o : SearchOptions) : Except Unit (List Ticket) := do
  let r1 ← collectTickets kv (timeCandidates kv o) []
  let r2 ← collectTickets kv (urgencyCandidates kv o) r1.2
  let r3 ← collectTickets kv (statusCandidates kv o) r2.2
  if ¬ timeSupplied o ∧ ¬ urgencySupplied o ∧ ¬ statusSupplied o then
    .ok (r1.1 ++ r2.1 ++ r3.1 ++ getAllTickets kv)
  else
    .ok (r1.1 ++ r2.1 ++ r3.1)

/-- The comparator of `searchTickets` (ticket-storage.js:126-131):
descending urgency, tie-broken by descending creation time.  `a` stays
before `b` exactly when the JS comparator returns `≤ 0`. -/
def ticketBefore (a b : Ticket) : Bool :=
  if a.urgency ≠ b.urgency then decide (b.urgency < a.urgency)
  else decide (b.createdAt.getD 0 ≤ a.createdAt.getD 0)

/-- Stable insertion step for `sortTickets`. -/
def insertSorted (a : Ticket) : List Ticket → List Ticket
  | [] => [a]
  | b :: rest => if ticketBefore a b then a :: b :: rest else b :: insertSorted a rest

/-- The stable sort of `searchTickets` (V8's `Array.prototype.sort` is
stable). -/
def sortTickets : List Ticket → List Ticket
  | [] => []
  | a :: rest => insertSorted a (sortTickets rest)

/-- `searchTickets` (ticket-storage.js:77-134): assemble, sort, truncate. -/
def searchTicketsE (kv : KV) (o : SearchOptions) : Except Unit (List Ticket) := do
  let tickets ← searchAssembleE kv o
  .ok ((sortTickets tickets).take o.limit)

/-- The per-id fetch loop of `getPendingTickets` (ticket-storage.js:217-225)
— note: no dedup here. -/
def fetchAll (kv : KV) : List String → Except Unit (List Ticket)
  | [] => .ok []
  | id :: rest => do
    let t? ← getTicketE kv id
    let ts ← fetchAll kv rest
    match t? with
    | some t => .ok (t :: ts)
    | none => .ok ts

/-- `getPendingTickets` (ticket-storage.js:217-225). -/
def getPendingTicketsE (kv : KV) : Except Unit (List Ticket) :=
  fetchAll kv (searchByStatus kv "pending")

/-- The stats accumulator of `getTicketStats`. -/
structure TicketStats where
  total : ℕ
  byStatus : List (String × ℕ)
  byUrgency : List (ℤ × ℕ)
  byType : List (String × ℕ)
deriving DecidableEq

/-- `stats.byX[k] = (stats.byX[k] || 0) + 1`. -/
def bumpCount {α : Type} [DecidableEq α] : List (α × ℕ) → α → List (α × ℕ)
  | [], k => [(k, 1)]
  | (k', n) :: rest, k =>
    if k = k' then (k', n + 1) :: rest else (k', n) :: bumpCount rest k

/-- One record of the `getTicketStats` scan: a record that fails to parse
is caught and skipped.  The urgency bucket `Math.floor(u * 10) / 10` is
keyed by its numerator `⌊u * 10⌋`. -/
def statsStep (s : TicketStats) (p : String × Blob) : TicketStats :=
  if jsStartsWith p.1 "ticket:" then
    match p.2 with
    | .record t =>
      { total := s.total + 1
        byStatus := bumpCount s.byStatus t.status
        byUrgency := bumpCount s.byUrgency ⌊t.urgency * 10⌋
        byType := bumpCount s.byType (jsOrStr t.type "unknown") }
    | _ => s
  else s

/-- `getTicketStats` (ticket-storage.js:252-289). -/
def getTicketStats (kv : KV) : TicketStats :=
  (kvScan kv "ticket:" "ticket:~").foldl statsStep ⟨0, [], [], []⟩

instance {ε α : Type} [DecidableEq ε] [DecidableEq α] : DecidableEq (Except ε α) := fun x y =>
  match x, y with
  | .ok a, .ok b => if h : a = b then isTrue (by rw [h]) else isFalse (by simp [h])
  | .error a, .error b => if h : a = b then isTrue (by rw [h]) else isFalse (by simp [h])
  | .ok _, .error _ => isFalse (by simp)
  | .error _, .ok _ => isFalse (by simp)

/-! ## Claim C2 -/

/-- **C2** (code_bug evidence).  `searchByStatus` pushes `parts[2]` of
`"index:status:<status>:<id>".split(":")`, which is the *status*, not the
ticket id (`parts[3]`).  So `searchTickets({status})` fetches the ticket
whose id literally equals the status string.  Failing input: store
`{id: "pending", status: "done", urgency: 0.5}` and
`{id: "t2", status: "pending", urgency: 0.5}`; then
`searchTickets({status: "pending"})` returns exactly the stored record of
the first ticket — whose status is `"done"`, not `"pending"` — while the
claim (and the spec's algorithm, whose scans yield ticket ids) says every
returned ticket has status `"pending"`. -/
theorem searchTickets_status_code_bug :
    searchTicketsE
        (storeTicket 10
          (storeTicket 5 []
            { id := "pending"
              status := "done"
              urgency := 0.5
              createdAt := some 1 })
          { id := "t2"
            status := "pending"
            urgency := 0.5
            createdAt := some 2 })
        { status := some "pending" } =
      .ok [{ id := "pending"
             status := "done"
             urgency := 0.5
             createdAt := some 1
             storedAt := some 5 }] := by
  decide

/-! ## Claim C3 -/

/-- **C3** (code_bug evidence).  `searchByMinUrgency` pushes `parts[2]` of
`"index:urgency:<key>:<id>".split(":")`, which is the rounded urgency key,
not the ticket id.  Failing input: store `{id: "1", urgency: 0.1}` and
`{id: "g", urgency: 1}`; then `searchTickets({minUrgency: 0.9})` scans the
in-range entry `index:urgency:1:g`, extracts `"1"` as the candidate "id",
and returns the stored record of the ticket with id `"1"` — whose urgency
is `0.1 < 0.9` — while the claim (and the spec's algorithm) says every
returned ticket has urgency at least the threshold. -/
theorem searchTickets_minUrgency_code_bug :
    searchTicketsE
        (storeTicket 10
          (storeTicket 5 []
            { id := "1"
              status := "p"
              urgency := 0.1
              createdAt := some 1 })
          { id := "g"
            status := "p"
            urgency := 1
            createdAt := some 2 })
        { minUrgencyTenths := some 9 } =
      .ok [{ id := "1"
             status := "p"
             urgency := 0.1
             createdAt := some 1
             storedAt := some 5 }] := by
  decide

/-! ## Claim C7 -/

/-- **C7 counterexample** (the claim is false on the code).  A store state
with one malformed primary record and an index entry that leads the status
scan to it: `searchTickets({status: "pending"})` does *not* skip the
record — `getTicket` has no try/catch around `JSON.parse`, so the decode
error propagates and the whole search aborts instead of completing with
partial results. -/
theorem searchTickets_malformed_cex :
    searchTicketsE
        [("index:status:pending:a", Blob.marker), ("ticket:pending", Blob.malformed)]
        { status := some "pending" } = .error () := by
  decide

/-- Each `getTicketStats` step adds to `total` exactly the number (0 or 1)
of decodable primary records in the entry. -/
theorem statsStep_total (s : TicketStats) (p : String × Blob) :
    (statsStep s p).total = s.total + (primaryRecordOf p).toList.length := by
  unfold statsStep primaryRecordOf
  cases hp : p.2 <;> (split <;> simp)

/-- Folding `statsStep` counts exactly the decodable primary records. -/
theorem foldl_statsStep_total (l : List (String × Blob)) (s : TicketStats) :
    (l.foldl statsStep s).total = s.total + (l.filterMap primaryRecordOf).length := by
  induction l generalizing s with
  | nil => simp
  | cons p l ih =>
    rw [List.foldl_cons, ih, List.filterMap_cons, statsStep_total]
    cases primaryRecordOf p
    · simp
    · simp
      omega

/-- **C7 amended** (as the counterexample forces).  Malformed primary
records are skipped only by the operations that wrap `JSON.parse` in a
try/catch: `getTicketStats` (which completes on every store state, its
`total` counting exactly the decodable records) and the predicate-free
`searchTickets` full scan (which completes returning exactly the decodable
records).  `searchTickets` with a supplied predicate instead propagates the
decode error of a scanned candidate's primary record (the
counterexample). -/
theorem scanOps_skip_malformed (kv : KV) :
    (getTicketStats kv).total = (getAllTickets kv).length ∧
      searchAssembleE kv {} = .ok (getAllTickets kv) := by
  constructor
  · rw [getTicketStats, foldl_statsStep_total, getAllTickets]
    simp
  · rfl

/-! ## Claim C4 -/

/-- `getTicket` on a store with no malformed records, as a pure function. -/
def getTicketP (kv : KV) (id : String) : Option Ticket :=
  match kvGet kv (pk id) with
  | some (.record t) => some t
  | _ => none

/-- `collectTickets` on a store with no malformed records, as a pure
function. -/
def collectP (kv : KV) : List String → List String → List Ticket × List String
  | [], seen => ([], seen)
  | id :: rest, seen =>
    if id ∈ seen then collectP kv rest seen
    else
      match getTicketP kv id with
      | some t => (t :: (collectP kv rest (id :: seen)).1, (collectP kv rest (id :: seen)).2)
      | none => collectP kv rest (id :: seen)

/-- `searchAssembleE` on a store with no malformed records, as a pure
function. -/
def searchAssembleP (kv : KV) (o : SearchOptions) : List Ticket :=
  let r1 := collectP kv (timeCandidates kv o) []
  let r2 := collectP kv (urgencyCandidates kv o) r1.2
  let r3 := collectP kv (statusCandidates kv o) r2.2
  if ¬ timeSupplied o ∧ ¬ urgencySupplied o ∧ ¬ statusSupplied o then
    r1.1 ++ r2.1 ++ r3.1 ++ getAllTickets kv
  else
    r1.1 ++ r2.1 ++ r3.1

/-- `bind` on a successful `Except` computation. -/
theorem okBind {ε α β : Type} (a : α) (f : α → Except ε β) :
    (Except.ok a >>= f : Except ε β) = f a := rfl

/-- A successful `kvGet` result is an entry of the store. -/
theorem kvGet_mem : ∀ (kv : KV) (k : String) (v : Blob),
    kvGet kv k = some v → (k, v) ∈ kv
  | [], _, _, h => Option.noConfusion h
  | (k', v') :: rest, k, v, h => by
    rw [kvGet] at h
    split at h
    · cases Option.some.inj h
      rename_i hk
      exact hk ▸ List.mem_cons_self ..
    · exact List.mem_cons_of_mem _ (kvGet_mem rest k v h)

/-- On a clean store, `getTicket` never throws. -/
theorem getTicketE_clean (kv : KV) (hclean : KVClean kv) (id : String) :
    getTicketE kv id = .ok (getTicketP kv id) := by
  unfold getTicketE getTicketP
  cases hget : kvGet kv (pk id) with
  | none => rfl
  | some b =>
    cases b with
    | record t => rfl
    | marker => rfl
    | malformed => exact absurd rfl (hclean _ (kvGet_mem kv _ _ hget))

/-- On a clean store, the fetch-and-dedup loop never throws. -/
theorem collectTickets_clean (kv : KV) (hclean : KVClean kv) :
    ∀ (ids seen : List String),
      collectTickets kv ids seen = .ok (collectP kv ids seen)
  | [], seen => rfl
  | id :: rest, seen => by
    rw [collectTickets, collectP]
    by_cases hseen : id ∈ seen
    · rw [if_pos hseen, if_pos hseen]
      exact collectTickets_clean kv hclean rest seen
    · rw [if_neg hseen, if_neg hseen, getTicketE_clean kv hclean id]
      show (Except.ok (getTicketP kv id) >>= _) = _
      rw [okBind]
      show (collectTickets kv rest (id :: seen) >>= _) = _
      rw [collectTickets_clean kv hclean rest (id :: seen), okBind]
      cases getTicketP kv id <;> rfl

/-- On a clean store, the assembly phase of `searchTickets` never throws
and agrees with its pure mirror. -/
theorem searchAssembleE_clean (kv : KV) (hclean : KVClean kv) (o : SearchOptions) :
    searchAssembleE kv o = .ok (searchAssembleP kv o) := by
  unfold searchAssembleE searchAssembleP
  rw [collectTickets_clean kv hclean]
  show (Except.ok _ >>= _) = _
  rw [okBind, collectTickets_clean kv hclean]
  show (Except.ok _ >>= _) = _
  rw [okBind, collectTickets_clean kv hclean]
  show (Except.ok _ >>= _) = _
  rw [okBind]
  split <;> rfl

/-- Membership in the tickets assembled by one fetch-and-dedup pass:
exactly the decodable records of the candidate ids not already seen. -/
theorem mem_collectP_fst (kv : KV) (t : Ticket) :
    ∀ (ids seen : List String),
      t ∈ (collectP kv ids seen).1 ↔
        ∃ i, i ∈ ids ∧ i ∉ seen ∧ getTicketP kv i = some t
  | [], seen => by simp [collectP]
  | id :: rest, seen => by
    rw [collectP]
    by_cases hseen : id ∈ seen
    · rw [if_pos hseen, mem_collectP_fst kv t rest seen]
      constructor
      · rintro ⟨i, hi, hni, hf⟩
        exact ⟨i, List.mem_cons_of_mem _ hi, hni, hf⟩
      · rintro ⟨i, hi, hni, hf⟩
        rcases List.mem_cons.1 hi with rfl | hi'
        · exact absurd hseen hni
        · exact ⟨i, hi', hni, hf⟩
    · rw [if_neg hseen]
      cases hget : getTicketP kv id with
      | some u =>
        simp only [List.mem_cons]
        rw [mem_collectP_fst kv t rest (id :: seen)]
        constructor
        · rintro (rfl | ⟨i, hi, hni, hf⟩)
          · exact ⟨id, Or.inl rfl, hseen, hget⟩
          · exact ⟨i, Or.inr hi,
              fun hc => hni (List.mem_cons_of_mem _ hc), hf⟩
        · rintro ⟨i, hi, hni, hf⟩
          rcases hi with rfl | hi'
          · rw [hget] at hf
            exact Or.inl (Option.some.inj hf).symm
          · by_cases hid : i = id
            · subst hid
              rw [hget] at hf
              exact Or.inl (Option.some.inj hf).symm
            · exact Or.inr ⟨i, hi', by simp [List.mem_cons, hid, hni], hf⟩
      | none =>
        rw [mem_collectP_fst kv t rest (id :: seen)]
        constructor
        · rintro ⟨i, hi, hni, hf⟩
          exact ⟨i, List.mem_cons_of_mem _ hi,
            fun hc => hni (List.mem_cons_of_mem _ hc), hf⟩
        · rintro ⟨i, hi, hni, hf⟩
          rcases List.mem_cons.1 hi with rfl | hi'
          · rw [hget] at hf
            exact Option.noConfusion hf
          · by_cases hid : i = id
            · subst hid
              rw [hget] at hf
              exact Option.noConfusion hf
            · exact ⟨i, hi', by simp [List.mem_cons, hid, hni], hf⟩

/-- The seen set returned by one fetch-and-dedup pass: the candidates
together with the initial seen set. -/
theorem mem_collectP_snd (kv : KV) (j : String) :
    ∀ (ids seen : List String),
      j ∈ (collectP kv ids seen).2 ↔ j ∈ ids ∨ j ∈ seen
  | [], seen => by simp [collectP]
  | id :: rest, seen => by
    rw [collectP]
    by_cases hseen : id ∈ seen
    · rw [if_pos hseen, mem_collectP_snd kv j rest seen]
      simp only [List.mem_cons]
      constructor
      · rintro (h | h)
        · exact Or.inl (Or.inr h)
        · exact Or.inr h
      · rintro ((rfl | h) | h)
        · exact Or.inr hseen
        · exact Or.inl h
        · exact Or.inr h
    · rw [if_neg hseen]
      have hrec : ∀ l : List Ticket, j ∈ (l, (collectP kv rest (id :: seen)).2).2 ↔
          j ∈ rest ∨ j ∈ id :: seen := fun _ => mem_collectP_snd kv j rest (id :: seen)
      cases hget : getTicketP kv id with
      | some u =>
        rw [hrec]
        simp only [List.mem_cons]
        tauto
      | none =>
        rw [mem_collectP_snd kv j rest (id :: seen)]
        simp only [List.mem_cons]
        tauto

/-- Membership in the assembled candidate set (at least one predicate
supplied, so the full-scan fallback is off): exactly the decodable records
reachable from some supplied predicate's scan. -/
theorem mem_searchAssembleP (kv : KV) (o : SearchOptions) (t : Ticket)
    (hsup : timeSupplied o ∨ urgencySupplied o ∨ statusSupplied o) :
    t ∈ searchAssembleP kv o ↔
      (∃ i ∈ timeCandidates kv o, getTicketP kv i = some t) ∨
      (∃ i ∈ urgencyCandidates kv o, getTicketP kv i = some t) ∨
      (∃ i ∈ statusCandidates kv o, getTicketP kv i = some t) := by
  have hS1 : ∀ i : String,
      i ∈ (collectP kv (timeCandidates kv o) []).2 ↔ i ∈ timeCandidates kv o := by
    intro i
    rw [mem_collectP_snd]
    simp
  have hS2 : ∀ i : String,
      i ∈ (collectP kv (urgencyCandidates kv o)
            (collectP kv (timeCandidates kv o) []).2).2 ↔
        i ∈ urgencyCandidates kv o ∨ i ∈ timeCandidates kv o := by
    intro i
    rw [mem_collectP_snd, hS1]
  simp only [searchAssembleP]
  rw [if_neg (by tauto)]
  simp only [List.mem_append]
  rw [mem_collectP_fst, mem_collectP_fst, mem_collectP_fst]
  constructor
  · rintro ((⟨i, hi, _, hf⟩ | ⟨i, hi, _, hf⟩) | ⟨i, hi, _, hf⟩)
    · exact Or.inl ⟨i, hi, hf⟩
    · exact Or.inr (Or.inl ⟨i, hi, hf⟩)
    · exact Or.inr (Or.inr ⟨i, hi, hf⟩)
  · rintro (⟨i, hi, hf⟩ | ⟨i, hi, hf⟩ | ⟨i, hi, hf⟩)
    · exact Or.inl (Or.inl ⟨i, hi, List.not_mem_nil i, hf⟩)
    · by_cases h1 : i ∈ (collectP kv (timeCandidates kv o) []).2
      · exact Or.inl (Or.inl ⟨i, (hS1 i).1 h1, List.not_mem_nil i, hf⟩)
      · exact Or.inl (Or.inr ⟨i, hi, h1, hf⟩)
    · by_cases h2 : i ∈ (collectP kv (urgencyCandidates kv o)
          (collectP kv (timeCandidates kv o) []).2).2
      · rcases (hS2 i).1 h2 with hU | hT
        · by_cases h1 : i ∈ (collectP kv (timeCandidates kv o) []).2
          · exact Or.inl (Or.inl ⟨i, (hS1 i).1 h1, List.not_mem_nil i, hf⟩)
          · exact Or.inl (Or.inr ⟨i, hU, h1, hf⟩)
        · exact Or.inl (Or.inl ⟨i, hT, List.not_mem_nil i, hf⟩)
      · exact Or.inr ⟨i, hi, h2, hf⟩

/-- `searchTickets` restricted to the time-range predicate alone. -/
def timeOnly (o : SearchOptions) : SearchOptions :=
  { startTime := o.startTime, endTime := o.endTime }

/-- `searchTickets` restricted to the min-urgency predicate alone. -/
def urgencyOnly (o : SearchOptions) : SearchOptions :=
  { minUrgencyTenths := o.minUrgencyTenths }

/-- `searchTickets` restricted to the status predicate alone. -/
def statusOnly (o : SearchOptions) : SearchOptions :=
  { status := o.status }

/-- How many of the three predicates the options supply. -/
def suppliedCount (o : SearchOptions) : ℕ :=
  (if timeSupplied o then 1 else 0) + (if urgencySupplied o then 1 else 0) +
    (if statusSupplied o then 1 else 0)

/-- The time-range predicate alone assembles exactly the records reachable
from the time scan. -/
theorem mem_single_time (kv : KV) (o : SearchOptions) (t : Ticket)
    (h : timeSupplied o) :
    t ∈ searchAssembleP kv (timeOnly o) ↔
      ∃ i ∈ timeCandidates kv o, getTicketP kv i = some t := by
  rw [mem_searchAssembleP kv (timeOnly o) t (Or.inl h)]
  have h1 : timeCandidates kv (timeOnly o) = timeCandidates kv o := rfl
  have h2 : urgencyCandidates kv (timeOnly o) = [] := rfl
  have h3 : statusCandidates kv (timeOnly o) = [] := by
    simp [statusCandidates, statusSupplied, timeOnly]
  rw [h1, h2, h3]
  simp

/-- The min-urgency predicate alone assembles exactly the records
reachable from the urgency scan. -/
theorem mem_single_urgency (kv : KV) (o : SearchOptions) (t : Ticket)
    (h : urgencySupplied o) :
    t ∈ searchAssembleP kv (urgencyOnly o) ↔
      ∃ i ∈ urgencyCandidates kv o, getTicketP kv i = some t := by
  rw [mem_searchAssembleP kv (urgencyOnly o) t (Or.inr (Or.inl h))]
  have h1 : timeCandidates kv (urgencyOnly o) = [] := by
    simp [timeCandidates, timeSupplied, urgencyOnly, jsFalsyI]
  have h2 : urgencyCandidates kv (urgencyOnly o) = urgencyCandidates kv o := rfl
  have h3 : statusCandidates kv (urgencyOnly o) = [] := by
    simp [statusCandidates, statusSupplied, urgencyOnly]
  rw [h1, h2, h3]
  simp

/-- The status predicate alone assembles exactly the records reachable
from the status scan. -/
theorem mem_single_status (kv : KV) (o : SearchOptions) (t : Ticket)
    (h : statusSupplied o) :
    t ∈ searchAssembleP kv (statusOnly o) ↔
      ∃ i ∈ statusCandidates kv o, getTicketP kv i = some t := by
  rw [mem_searchAssembleP kv (statusOnly o) t (Or.inr (Or.inr h))]
  have h1 : timeCandidates kv (statusOnly o) = [] := by
    simp [timeCandidates, timeSupplied, statusOnly, jsFalsyI]
  have h2 : urgencyCandidates kv (statusOnly o) = [] := rfl
  have h3 : statusCandidates kv (statusOnly o) = statusCandidates kv o := rfl
  rw [h1, h2, h3]
  simp

/-- **C4** (confirmed).  On a store with no malformed records and with at
least two predicates supplied, the candidate set `searchTickets` assembles
before sorting and limit truncation is the union — deduplicated by
candidate id — of the sets each supplied predicate assembles alone, not
their intersection.  (The first four conjuncts discharge the `Except`
layer: on a clean store the assembly phase never throws and agrees with
its pure mirror, for the combined options and for each single-predicate
restriction.) -/
theorem searchTickets_union (kv : KV) (hclean : KVClean kv) (o : SearchOptions)
    (hpreds : 2 ≤ suppliedCount o) (t : Ticket) :
    searchAssembleE kv o = .ok (searchAssembleP kv o) ∧
      searchAssembleE kv (timeOnly o) = .ok (searchAssembleP kv (timeOnly o)) ∧
      searchAssembleE kv (urgencyOnly o) = .ok (searchAssembleP kv (urgencyOnly o)) ∧
      searchAssembleE kv (statusOnly o) = .ok (searchAssembleP kv (statusOnly o)) ∧
      (t ∈ searchAssembleP kv o ↔
        (timeSupplied o ∧ t ∈ searchAssembleP kv (timeOnly o)) ∨
        (urgencySupplied o ∧ t ∈ searchAssembleP kv (urgencyOnly o)) ∨
        (statusSupplied o ∧ t ∈ searchAssembleP kv (statusOnly o))) := by
  refine ⟨searchAssembleE_clean kv hclean o, searchAssembleE_clean kv hclean _,
    searchAssembleE_clean kv hclean _, searchAssembleE_clean kv hclean _, ?_⟩
  have hsup : timeSupplied o ∨ urgencySupplied o ∨ statusSupplied o := by
    by_contra hc
    push_neg at hc
    unfold suppliedCount at hpreds
    rw [if_neg hc.1, if_neg hc.2.1, if_neg hc.2.2] at hpreds
    omega
  rw [mem_searchAssembleP kv o t hsup]
  constructor
  · rintro (⟨i, hi, hf⟩ | ⟨i, hi, hf⟩ | ⟨i, hi, hf⟩)
    · have hts : timeSupplied o := by
        by_contra hns
        rw [timeCandidates, if_neg hns] at hi
        exact List.not_mem_nil i hi
      exact Or.inl ⟨hts, (mem_single_time kv o t hts).2 ⟨i, hi, hf⟩⟩
    · have hus : urgencySupplied o := by
        rcases hmo : o.minUrgencyTenths with _ | z
        · rw [urgencyCandidates, hmo] at hi
          exact absurd hi (List.not_mem_nil i)
        · simp [urgencySupplied, hmo]
      exact Or.inr (Or.inl ⟨hus, (mem_single_urgency kv o t hus).2 ⟨i, hi, hf⟩⟩)
    · have hss : statusSupplied o := by
        by_contra hns
        rw [statusCandidates, if_neg hns] at hi
        exact List.not_mem_nil i hi
      exact Or.inr (Or.inr ⟨hss, (mem_single_status kv o t hss).2 ⟨i, hi, hf⟩⟩)
  · rintro (⟨hts, hmem⟩ | ⟨hus, hmem⟩ | ⟨hss, hmem⟩)
    · exact Or.inl ((mem_single_time kv o t hts).1 hmem)
    · exact Or.inr (Or.inl ((mem_single_urgency kv o t hus).1 hmem))
    · exact Or.inr (Or.inr ((mem_single_status kv o t hss).1 hmem))

/-- Concrete store for the C4 witness: two stored pending tickets. -/
def c4kv : KV :=
  storeTicket 5
    (storeTicket 3 []
      { id := "a1"
        status := "pending"
        urgency := 0.5
        createdAt := some 1 })
    { id := "a2"
      status := "pending"
      urgency := 0.7
      createdAt := some 2 }

/-- Concrete options for the C4 witness: two supplied predicates. -/
def c4opts : SearchOptions :=
  { minUrgencyTenths := some 0, status := some "pending" }

/-- Concrete probe ticket for the C4 witness. -/
def c4t : Ticket :=
  { id := "a1", status := "pending", urgency := 0.5, createdAt := some 1,
    storedAt := some 3 }

/-- Witness for C4 at a concrete clean store with two supplied
predicates. -/
theorem searchTickets_union_witness :
    KVClean c4kv ∧ 2 ≤ suppliedCount c4opts ∧
      (searchAssembleE c4kv c4opts = .ok (searchAssembleP c4kv c4opts) ∧
        searchAssembleE c4kv (timeOnly c4opts) =
          .ok (searchAssembleP c4kv (timeOnly c4opts)) ∧
        searchAssembleE c4kv (urgencyOnly c4opts) =
          .ok (searchAssembleP c4kv (urgencyOnly c4opts)) ∧
        searchAssembleE c4kv (statusOnly c4opts) =
          .ok (searchAssembleP c4kv (statusOnly c4opts)) ∧
        (c4t ∈ searchAssembleP c4kv c4opts ↔
          (timeSupplied c4opts ∧ c4t ∈ searchAssembleP c4kv (timeOnly c4opts)) ∨
          (urgencySupplied c4opts ∧ c4t ∈ searchAssembleP c4kv (urgencyOnly c4opts)) ∨
          (statusSupplied c4opts ∧ c4t ∈ searchAssembleP c4kv (statusOnly c4opts)))) :=
  ⟨by decide, by decide, searchTickets_union c4kv (by decide) c4opts (by decide) c4t⟩

/-! ## Service facade and re-triage scheduler (`src/server.js`) -/

/-- The response of `handleSubmitTicket`. -/
structure SubmitResult where
  ticketId : String
  urgency : ℚ
  summary : String
  tags : List String
deriving DecidableEq

/-- `handleSubmitTicket` (server.js:268-303).  `genId` stands for the
random id `crypto.randomBytes(16).toString("hex")` drawn when the raw
ticket carries no id.  The handler always sets `createdAt = Date.now()`
and `status = "pending"` (also on re-submission of an existing id),
normalizes `approvals`/`requiredApprovals`, scores, then stores. -/
def handleSubmitTicket (now : ℤ) (llm : LLMOutcome) (genId : String)
    (t0 : Ticket) (kv : KV) : KV × SubmitResult :=
  let t1 := if t0.id = "" then { t0 with id := genId } else t0
  let t2 := { t1 with
    createdAt := some now
    status := "pending"
    requiredApprovals := jsOrNat t1.requiredApprovals 2 }
  let r := calculateUrgency now llm t2
  let t3 := { t2 with
    urgency := r.score
    breakdown := some r.breakdown
    summary := r.summary
    tags := r.tags }
  (storeTicket now kv t3, ⟨t3.id, t3.urgency, t3.summary, t3.tags⟩)

/-- The updated ticket assembled by `reTriagePendingTickets` when the
score moved by more than 0.1 (server.js:365-371). -/
def reTriageUpdate (now : ℤ) (r : ScoreResult) (t : Ticket) : Ticket :=
  { t with
    urgency := r.score
    breakdown := some r.breakdown
    summary := r.summary
    tags := r.tags
    lastUpdated := some now }

/-- One iteration of the `for` loop of `reTriagePendingTickets`
(server.js:360-375): re-score, and persist via `updateTicket` exactly when
`|newScore - oldScore| > 0.1`.  The scorer (or the persist step it guards)
may throw, modelled by `score` returning `Except`. -/
def reTriageStep (score : Ticket → Except Unit ScoreResult) (now : ℤ)
    (kv : KV) (t : Ticket) : Except Unit KV :=
  match score t with
  | .error e => .error e
  | .ok r =>
    if |r.score - t.urgency| > 0.1 then
      .ok (updateTicket now kv (reTriageUpdate now r t))
    else
      .ok kv

/-- The whole `for` loop of `reTriagePendingTickets`: there is no
per-ticket try/catch, so the first throwing iteration aborts the remaining
ones; writes already performed persist, and the exception escapes (the
`some ()` flag). -/
def reTriageLoop (score : Ticket → Except Unit ScoreResult) (now : ℤ) :
    List Ticket → KV → KV × Option Unit
  | [], kv => (kv, none)
  | t :: rest, kv =>
    match reTriageStep score now kv t with
    | .error _ => (kv, some ())
    | .ok kv' => reTriageLoop score now rest kv'

/-- `reTriagePendingTickets` as driven by the scheduler callback for a
given fetched list: the `try/catch` in the `setInterval` callback
(server.js:345-351) discards any escaped exception, so the tick always
yields a state and the scheduler loop keeps running. -/
def reTriageCaught (score : Ticket → Except Unit ScoreResult) (now : ℤ)
    (ts : List Ticket) (kv : KV) : KV :=
  (reTriageLoop score now ts kv).1

/-- One full scheduler tick (server.js:342-380): fetch the pending
tickets, then run the loop; any exception (from the fetch or the loop) is
swallowed by the callback's try/catch. -/
def schedulerTick (score : Ticket → Except Unit ScoreResult) (now : ℤ)
    (kv : KV) : KV :=
  match getPendingTicketsE kv with
  | .error _ => kv
  | .ok pending => reTriageCaught score now pending kv

/-! ## Key lemmas for the primary records -/

/-- Different strings stay different under a common key scheme. -/
theorem ne_of_head (a b : String) (ca cb : Char) (ha : a.data.head? = some ca)
    (hb : b.data.head? = some cb) (hc : ca ≠ cb) : a ≠ b := by
  intro h
  rw [h, hb] at ha
  exact hc (Option.some.inj ha).symm

/-- A primary key never equals a key that starts with `i` (all index
keys do). -/
theorem pk_ne_indexish (i k : String) (hk : k.data.head? = some 'i') : pk i ≠ k :=
  ne_of_head _ _ 't' 'i' (by rw [pk, String.data_append]; rfl) hk (by decide)

/-- The primary-key scheme is injective. -/
theorem pk_inj (a b : String) (h : pk a = pk b) : a = b := by
  have hd := congrArg String.data h
  rw [pk, pk, String.data_append, String.data_append] at hd
  exact String.ext (List.append_cancel_left hd)

/-- `kvGet` after `kvPut` at the same key. -/
theorem kvGet_kvPut_self : ∀ (kv : KV) (k : String) (v : Blob),
    kvGet (kvPut kv k v) k = some v
  | [], k, v => by simp [kvPut, kvGet]
  | (k', v') :: rest, k, v => by
    rw [kvPut]
    by_cases h1 : keyLt k k' = true
    · rw [if_pos h1, kvGet, if_pos rfl]
    · rw [if_neg h1]
      by_cases h2 : k = k'
      · rw [if_pos h2, kvGet, if_pos rfl]
      · rw [if_neg h2, kvGet, if_neg h2]
        exact kvGet_kvPut_self rest k v

/-- `kvGet` after `kvPut` at a different key. -/
theorem kvGet_kvPut_ne : ∀ (kv : KV) (k j : String) (v : Blob), j ≠ k →
    kvGet (kvPut kv k v) j = kvGet kv j
  | [], k, j, v, h => by simp [kvPut, kvGet, h]
  | (k', v') :: rest, k, j, v, h => by
    rw [kvPut]
    by_cases h1 : keyLt k k' = true
    · rw [if_pos h1, kvGet, if_neg h]
    · rw [if_neg h1]
      by_cases h2 : k = k'
      · rw [if_pos h2, kvGet, if_neg h, kvGet,
          if_neg (fun hj => h (hj.trans h2.symm))]
      · rw [if_neg h2, kvGet, kvGet]
        by_cases h3 : j = k'
        · rw [if_pos h3, if_pos h3]
        · rw [if_neg h3, if_neg h3]
          exact kvGet_kvPut_ne rest k j v h

/-- A primary key never equals an index key
`<pre><value>:<id>` whose prefix starts with `i`. -/
theorem pk_ne_index_key (i pre a b : String) (hpre : pre.data.head? = some 'i') :
    pk i ≠ pre ++ a ++ ":" ++ b := by
  apply pk_ne_indexish
  rw [String.data_append, String.data_append, String.data_append]
  cases hp : pre.data with
  | nil => rw [hp] at hpre; exact Option.noConfusion hpre
  | cons c l =>
    rw [hp] at hpre
    cases Option.some.inj hpre
    rfl

/-- Index writes never touch a primary record. -/
theorem kvGet_pk_createIndexes (now : ℤ) (kv : KV) (t : Ticket) (i : String) :
    kvGet (createIndexes now kv t) (pk i) = kvGet kv (pk i) := by
  have hK3 : kvGet (kvPut (kvPut (kvPut kv
        ("index:time:" ++ toString (jsOrInt t.createdAt now) ++ ":" ++ t.id) .marker)
        ("index:urgency:" ++ fmtTenths (jsRound (t.urgency * 10)) ++ ":" ++ t.id) .marker)
        ("index:status:" ++ t.status ++ ":" ++ t.id) .marker) (pk i) = kvGet kv (pk i) := by
    rw [kvGet_kvPut_ne _ _ _ _ (pk_ne_index_key i "index:status:" _ _ rfl),
        kvGet_kvPut_ne _ _ _ _ (pk_ne_index_key i "index:urgency:" _ _ rfl),
        kvGet_kvPut_ne _ _ _ _ (pk_ne_index_key i "index:time:" _ _ rfl)]
  simp only [createIndexes]
  split
  · split
    · rw [kvGet_kvPut_ne _ _ _ _ (pk_ne_index_key i "index:type:" _ _ rfl)]
      exact hK3
    · exact hK3
  · rw [kvGet_kvPut_ne _ _ _ _ (pk_ne_index_key i "index:deadline:" _ _ rfl)]
    split
    · rw [kvGet_kvPut_ne _ _ _ _ (pk_ne_index_key i "index:type:" _ _ rfl)]
      exact hK3
    · exact hK3

/-- Storing a ticket makes its primary record the ticket plus
`storedAt`. -/
theorem kvGet_storeTicket_self (now : ℤ) (kv : KV) (t : Ticket) :
    kvGet (storeTicket now kv t) (pk t.id) =
      some (.record { t with storedAt := some now }) := by
  unfold storeTicket
  rw [kvGet_pk_createIndexes, kvGet_kvPut_self]

/-- Storing a ticket leaves every other primary record untouched. -/
theorem kvGet_storeTicket_ne (now : ℤ) (kv : KV) (u : Ticket) (i : String)
    (h : u.id ≠ i) :
    kvGet (storeTicket now kv u) (pk i) = kvGet kv (pk i) := by
  unfold storeTicket
  rw [kvGet_pk_createIndexes,
    kvGet_kvPut_ne _ _ _ _ (fun hc => h (pk_inj _ _ hc).symm)]

/-! ## Claim C5 -/

/-- With a non-throwing scorer, one loop iteration persists the update
exactly when the score moved by more than 0.1. -/
theorem reTriageStep_ok (score : Ticket → ScoreResult) (now : ℤ) (kv : KV)
    (u : Ticket) :
    reTriageStep (fun v => .ok (score v)) now kv u =
      .ok (if |(score u).score - u.urgency| > 0.1
           then updateTicket now kv (reTriageUpdate now (score u) u) else kv) := by
  show (if |(score u).score - u.urgency| > 0.1
      then Except.ok (updateTicket now kv (reTriageUpdate now (score u) u))
      else Except.ok kv) =
    Except.ok (if |(score u).score - u.urgency| > 0.1
      then updateTicket now kv (reTriageUpdate now (score u) u) else kv)
  by_cases hcond : |(score u).score - u.urgency| > 0.1
  · rw [if_pos hcond, if_pos hcond]
  · rw [if_neg hcond, if_neg hcond]

/-- Unfolding one non-throwing loop iteration. -/
theorem reTriageLoop_cons_ok (score : Ticket → ScoreResult) (now : ℤ)
    (u : Ticket) (rest : List Ticket) (kv : KV) :
    reTriageLoop (fun v => .ok (score v)) now (u :: rest) kv =
      reTriageLoop (fun v => .ok (score v)) now rest
        (if |(score u).score - u.urgency| > 0.1
         then updateTicket now kv (reTriageUpdate now (score u) u) else kv) := by
  rw [reTriageLoop, reTriageStep_ok]

/-- Once a ticket's updated record is in the store, the rest of a tick
(whose equal-id entries are identical copies of that ticket) leaves it
there. -/
theorem reTriageLoop_keep (score : Ticket → ScoreResult) (now : ℤ) (t : Ticket)
    (hd : |(score t).score - t.urgency| > 0.1) :
    ∀ (ts : List Ticket) (kv : KV),
      (∀ u ∈ ts, u.id = t.id → u = t) →
      kvGet kv (pk t.id) =
        some (.record { reTriageUpdate now (score t) t with storedAt := some now }) →
      kvGet (reTriageLoop (fun v => .ok (score v)) now ts kv).1 (pk t.id) =
        some (.record { reTriageUpdate now (score t) t with storedAt := some now })
  | [], kv, _, hkv => hkv
  | u :: rest, kv, hids, hkv => by
    rw [reTriageLoop_cons_ok]
    by_cases hu : u.id = t.id
    · have hut : u = t := hids u (List.mem_cons_self ..) hu
      subst hut
      rw [if_pos hd]
      refine reTriageLoop_keep score now u hd rest _
        (fun v hv => hids v (List.mem_cons_of_mem _ hv)) ?_
      show kvGet (storeTicket now kv (reTriageUpdate now (score u) u)) (pk u.id) = _
      exact kvGet_storeTicket_self now kv (reTriageUpdate now (score u) u)
    · split
      · refine reTriageLoop_keep score now t hd rest _
          (fun v hv => hids v (List.mem_cons_of_mem _ hv)) ?_
        show kvGet (storeTicket now kv (reTriageUpdate now (score u) u)) (pk t.id) = _
        rw [kvGet_storeTicket_ne now kv (reTriageUpdate now (score u) u) t.id hu]
        exact hkv
      · exact reTriageLoop_keep score now t hd rest kv
          (fun v hv => hids v (List.mem_cons_of_mem _ hv)) hkv

/-- A fetched ticket whose score moved by more than 0.1 ends the tick with
its updated record stored. -/
theorem reTriageLoop_writes (score : Ticket → ScoreResult) (now : ℤ) (t : Ticket)
    (hd : |(score t).score - t.urgency| > 0.1) :
    ∀ (ts : List Ticket) (kv : KV),
      (∀ u ∈ ts, u.id = t.id → u = t) → t ∈ ts →
      kvGet (reTriageLoop (fun v => .ok (score v)) now ts kv).1 (pk t.id) =
        some (.record { reTriageUpdate now (score t) t with storedAt := some now })
  | [], _, _, ht => absurd ht (List.not_mem_nil t)
  | u :: rest, kv, hids, ht => by
    rw [reTriageLoop_cons_ok]
    by_cases hu : u.id = t.id
    · have hut : u = t := hids u (List.mem_cons_self ..) hu
      subst hut
      rw [if_pos hd]
      refine reTriageLoop_keep score now u hd rest _
        (fun v hv => hids v (List.mem_cons_of_mem _ hv)) ?_
      show kvGet (storeTicket now kv (reTriageUpdate now (score u) u)) (pk u.id) = _
      exact kvGet_storeTicket_self now kv (reTriageUpdate now (score u) u)
    · have ht' : t ∈ rest := by
        rcases List.mem_cons.1 ht with rfl | h
        · exact absurd rfl hu
        · exact h
      split
      · exact reTriageLoop_writes score now t hd rest _
          (fun v hv => hids v (List.mem_cons_of_mem _ hv)) ht'
      · exact reTriageLoop_writes score now t hd rest kv
          (fun v hv => hids v (List.mem_cons_of_mem _ hv)) ht'

/-- A fetched ticket whose score moved by at most 0.1 ends the tick with
its primary record exactly as it was. -/
theorem reTriageLoop_untouched (score : Ticket → ScoreResult) (now : ℤ) (t : Ticket)
    (hd : ¬ |(score t).score - t.urgency| > 0.1) :
    ∀ (ts : List Ticket) (kv : KV),
      (∀ u ∈ ts, u.id = t.id → u = t) →
      kvGet (reTriageLoop (fun v => .ok (score v)) now ts kv).1 (pk t.id) =
        kvGet kv (pk t.id)
  | [], kv, _ => rfl
  | u :: rest, kv, hids => by
    rw [reTriageLoop_cons_ok]
    by_cases hu : u.id = t.id
    · have hut : u = t := hids u (List.mem_cons_self ..) hu
      subst hut
      rw [if_neg hd]
      exact reTriageLoop_untouched score now u hd rest kv
        (fun v hv => hids v (List.mem_cons_of_mem _ hv))
    · split
      · rw [reTriageLoop_untouched score now t hd rest _
          (fun v hv => hids v (List.mem_cons_of_mem _ hv))]
        show kvGet (storeTicket now kv (reTriageUpdate now (score u) u)) (pk t.id) = _
        exact kvGet_storeTicket_ne now kv (reTriageUpdate now (score u) u) t.id hu
      · exact reTriageLoop_untouched score now t hd rest kv
          (fun v hv => hids v (List.mem_cons_of_mem _ hv))

/-- **C5** (confirmed).  On a tick whose scorer does not throw, for every
fetched pending ticket (fetched copies with the same id are identical
records, which holds of `getPendingTickets` output since every fetch of an
id returns the same stored record): the stored primary record after the
loop is the re-scored record — `urgency`, `urgencyBreakdown`, `summary`,
`tags` overwritten, `lastUpdated` and `storedAt` set to the tick time — if
`|newScore − oldScore| > 0.1`, and is byte-for-byte the pre-tick record
(same `lastUpdated`, no write) otherwise. -/
theorem retriage_write_iff (score : Ticket → ScoreResult) (now : ℤ)
    (ts : List Ticket) (kv : KV)
    (hids : ∀ t ∈ ts, ∀ u ∈ ts, u.id = t.id → u = t)
    (t : Ticket) (ht : t ∈ ts) :
    kvGet (reTriageLoop (fun u => .ok (score u)) now ts kv).1 (pk t.id) =
      if |(score t).score - t.urgency| > 0.1
      then some (.record { reTriageUpdate now (score t) t with storedAt := some now })
      else kvGet kv (pk t.id) := by
  by_cases hd : |(score t).score - t.urgency| > 0.1
  · rw [if_pos hd]
    exact reTriageLoop_writes score now t hd ts kv (hids t ht) ht
  · rw [if_neg hd]
    exact reTriageLoop_untouched score now t hd ts kv (hids t ht)

/-- Concrete ticket and store for the C5 witness. -/
def c5t : Ticket := { id := "w", status := "pending", urgency := 0, createdAt := some 1 }

/-- Concrete store for the C5 witness. -/
def c5kv : KV := storeTicket 1 [] c5t

/-- Witness for C5: one pending ticket re-scored by the deterministic
engine (no backend), whose score moves from 0 to 0.41 > 0.1. -/
theorem retriage_write_iff_witness :
    kvGet (reTriageLoop (fun u => .ok (calculateUrgency 100 none u)) 100 [c5t] c5kv).1
        (pk c5t.id) =
      (if |(calculateUrgency 100 none c5t).score - c5t.urgency| > 0.1
       then some (.record
         { reTriageUpdate 100 (calculateUrgency 100 none c5t) c5t with storedAt := some 100 })
       else kvGet c5kv (pk c5t.id)) :=
  retriage_write_iff (fun u => calculateUrgency 100 none u) 100 [c5t] c5kv
    (by decide) c5t (by decide)

/-! ## Claim C6 -/

/-- A scorer that throws on the first ticket of the C6 scenario and
re-scores every other ticket to 1. -/
def c6score : Ticket → Except Unit ScoreResult := fun u =>
  if u.id = "b1" then .error ()
  else .ok
    { score := 1
      breakdown :=
        { baseUrgency := 1
          llmAdjustment := 0
          factors := { value := 0.1, deadline := 0.3, approvals := 0.9,
                       type := 0.3, recipient := 0.8 } }
      summary := "s"
      tags := [] }

/-- First pending ticket of the C6 scenario (its re-scoring throws). -/
def c6t1 : Ticket := { id := "b1", status := "pending", urgency := 0.5, createdAt := some 1 }

/-- Second pending ticket of the C6 scenario (its score moves 0 → 1). -/
def c6t2 : Ticket := { id := "b2", status := "pending", urgency := 0, createdAt := some 2 }

/-- Store of the C6 scenario. -/
def c6kv : KV := storeTicket 1 (storeTicket 1 [] c6t1) c6t2

/-- **C6 counterexample** (the claim is false on the code).  The loop of
`reTriagePendingTickets` has no per-ticket try/catch: when re-scoring the
first fetched ticket throws, the tick ends with the store unchanged and
the exception escaping — the second ticket is *not* processed, although
processing it alone would have rewritten the store (its score difference
exceeds 0.1). -/
theorem retriage_abort_cex :
    reTriageLoop c6score 50 [c6t1, c6t2] c6kv = (c6kv, some ()) ∧
      (reTriageLoop c6score 50 [c6t2] c6kv).1 ≠ c6kv := by
  decide

/-- **C6 amended** (as the counterexample forces).  If the tickets before
`t` in the fetched list process cleanly and re-scoring (or persisting) `t`
throws, the tick aborts: the remaining tickets are *not* processed, the
state stays as it was after the clean prefix, and the exception escapes
the loop — where the try/catch of the scheduler callback swallows it, so
the tick still yields a state and the scheduler loop never crashes. -/
theorem retriage_abort (score : Ticket → Except Unit ScoreResult) (now : ℤ)
    (pre post : List Ticket) (t : Ticket) (kv kv' : KV)
    (hpre : reTriageLoop score now pre kv = (kv', none))
    (ht : score t = .error ()) :
    reTriageLoop score now (pre ++ t :: post) kv = (kv', some ()) ∧
      reTriageCaught score now (pre ++ t :: post) kv = kv' := by
  have hmain : reTriageLoop score now (pre ++ t :: post) kv = (kv', some ()) := by
    induction pre generalizing kv with
    | nil =>
      rw [reTriageLoop] at hpre
      injection hpre with h1 _
      subst h1
      rw [List.nil_append, reTriageLoop, reTriageStep, ht]
    | cons u pre' ih =>
      rw [reTriageLoop] at hpre
      cases hstep : reTriageStep score now kv u with
      | error e =>
        rw [hstep] at hpre
        injection hpre with _ h2
        exact Option.noConfusion h2
      | ok kv2 =>
        rw [hstep] at hpre
        rw [List.cons_append, reTriageLoop, hstep]
        exact ih kv2 hpre
  exact ⟨hmain, by rw [reTriageCaught, hmain]⟩

/-- Witness for C6: the scenario of the counterexample, with an empty
clean prefix. -/
theorem retriage_abort_witness :
    reTriageLoop c6score 50 ([] ++ c6t1 :: [c6t2]) c6kv = (c6kv, some ()) ∧
      reTriageCaught c6score 50 ([] ++ c6t1 :: [c6t2]) c6kv = c6kv :=
  retriage_abort c6score 50 [] [c6t2] c6t1 c6kv c6kv rfl (by decide)

/-! ## Claim C9 -/

/-- **C9 counterexample** (the claim is false on the code).
`handleSubmitTicket` runs `ticket.createdAt = Date.now()` unconditionally,
also when the submitted ticket carries an id that is already stored: after
submitting id `"a"` at time 100 and again at time 200, the stored
`createdAt` is 200 — the first store's `createdAt` was not immutable. -/
theorem submit_overwrites_createdAt_cex :
    (getTicketP ((handleSubmitTicket 200 none "g" { id := "a" }
          ((handleSubmitTicket 100 none "g" { id := "a" } []).1)).1) "a").map
        Ticket.createdAt = some (some 200) ∧
      (getTicketP ((handleSubmitTicket 100 none "g" { id := "a" } []).1) "a").map
        Ticket.createdAt = some (some 100) := by
  decide

/-- `getTicket` right after `storeTicket` returns the stored record. -/
theorem getTicketP_storeTicket_self (now : ℤ) (kv : KV) (t : Ticket) :
    getTicketP (storeTicket now kv t) t.id = some { t with storedAt := some now } := by
  unfold getTicketP
  rw [kvGet_storeTicket_self]

/-- **C9 amended** (as the counterexample forces).  `createdAt` is set to
the submission time on *every* `submitTicket` call — overwriting the
previous value when the same id is re-submitted — while a re-triage update
carries the fetched ticket's `createdAt` through unchanged. -/
theorem submit_sets_createdAt (now : ℤ) (llm : LLMOutcome) (genId : String)
    (t0 : Ticket) (kv : KV) :
    (getTicketP (handleSubmitTicket now llm genId t0 kv).1
        (handleSubmitTicket now llm genId t0 kv).2.ticketId).map Ticket.createdAt =
      some (some now) ∧
      ∀ (r : ScoreResult) (u : Ticket), (reTriageUpdate now r u).createdAt = u.createdAt := by
  refine ⟨?_, fun r u => rfl⟩
  dsimp only [handleSubmitTicket]
  rw [getTicketP_storeTicket_self]
  rfl
